import Mathlib

/-!
# Verification of the etrendo harvesting-and-normalization pipeline

Shallow embedding of the ingestion jobs:
* `src/ingestion/marketplace1_price_listing/fetch_marketplace1_price_listing.py`
* `src/ingestion/marketplace1_product_details/fetch_marketplace1_product_details.py`
* `src/ingestion/marketplace2_product_details/fetch_marketplace2_product_details.py`
* `src/ingestion/marketplace1_product_listing/fetch_marketplace1_product_listing.py`
* `src/ingestion/jobs/fetch_marketplace1_listing.py`

JSON payloads are modelled by an inductive `JVal`; Python dicts are
association lists (first-match lookup, with insertion overwriting the
existing key in place, as for Python dicts built by successive
assignment).  Python truthiness is modelled by `truthy`.
-/

set_option maxHeartbeats 1000000
set_option maxRecDepth 100000

namespace Etrendo

/-- JSON-like values as produced by `resp.json()` and manipulated by the jobs. -/
inductive JVal where
  | null
  | bool (b : Bool)
  | num (n : Int)
  | str (s : String)
  | arr (xs : List JVal)
  | obj (fs : List (String × JVal))

namespace JVal

/-- Python truthiness of a JSON value (`if val:`). -/
def truthy : JVal → Bool
  | .null => false
  | .bool b => b
  | .num n => n != 0
  | .str s => !s.isEmpty
  | .arr xs => !xs.isEmpty
  | .obj fs => !fs.isEmpty

/-- `d.get(k)`: `none` when the value is not a dict or the key is absent. -/
def get : JVal → String → Option JVal
  | .obj fs, k => (fs.find? (fun kv => kv.1 = k)).map (·.2)
  | _, _ => none

/-- `d.get(k)` collapsed to a value, Python `None` becoming `null`. -/
def getD (v : JVal) (k : String) : JVal := (v.get k).getD .null

/-- `k in d` for a dict value. -/
def hasKey : JVal → String → Bool
  | .obj fs, k => fs.any (fun kv => kv.1 = k)
  | _, _ => false

/-- Python `a or b` on JSON values. -/
def pyOr (a b : JVal) : JVal := if a.truthy then a else b

end JVal

/-- Hex digit (upper case), used by the percent encoder. -/
def hexDigit (n : Nat) : Char :=
  if n < 10 then Char.ofNat (48 + n) else Char.ofNat (55 + n)

/-- `urllib.parse.quote` of a single character with `safe="="`. -/
def quoteChar (c : Char) : String :=
  if c.isAlphanum || c = '_' || c = '.' || c = '-' || c = '~' || c = '=' then
    c.toString
  else
    String.join ((c.toString.toUTF8.toList).map
      (fun b => "%" ++ (hexDigit (b.toNat / 16)).toString ++ (hexDigit (b.toNat % 16)).toString))

/-- `urllib.parse.quote(s, safe="=")`. -/
def quoteSafeEq (s : String) : String := String.join (s.data.map quoteChar)

/-- Serialization of a JSON value, standing for `json.dumps(..., ensure_ascii=False)`. -/
def jser : JVal → String
  | .null => "null"
  | .bool true => "true"
  | .bool false => "false"
  | .num n => toString n
  | .str s => "\"" ++ s ++ "\""
  | .arr xs => "[" ++ String.intercalate ", " (xs.attach.map (fun x => jser x.1)) ++ "]"
  | .obj fs => "\x7b" ++ String.intercalate ", "
      (fs.attach.map (fun f => "\"" ++ f.1.1 ++ "\": " ++ jser f.1.2)) ++ "\x7d"
decreasing_by
  · simp_wf
    have := List.sizeOf_lt_of_mem x.2
    omega
  · rcases f with ⟨⟨k, v⟩, h⟩
    simp_wf
    have := List.sizeOf_lt_of_mem h
    simp at this
    omega

/-- Whether `pat` is a prefix of `cs`. -/
def isPrefixList : List Char → List Char → Bool
  | [], _ => true
  | _ :: _, [] => false
  | a :: as, b :: bs => a = b && isPrefixList as bs

/-- Python `pat in s` on character lists. -/
def is_sub_aux (pat : List Char) : List Char → Bool
  | [] => isPrefixList pat []
  | c :: rest => isPrefixList pat (c :: rest) || is_sub_aux pat rest

/-- Python `pat in s` (substring containment). -/
def py_contains (s pat : String) : Bool := is_sub_aux pat.data s.data

/-- Split at each non-overlapping occurrence of `sep` (left to right);
`cur` holds the reversed chars of the piece being built.  The fuel is an
upper bound on the remaining length, so recursion is structural and the
function reduces definitionally. -/
def splitAux (sep : List Char) : Nat → List Char → List Char → List (List Char)
  | _, [], cur => [cur.reverse]
  | 0, _ :: _, cur => [cur.reverse]
  | fuel + 1, c :: rest, cur =>
    if isPrefixList sep (c :: rest) then
      cur.reverse :: splitAux sep fuel (List.drop (sep.length - 1) rest) []
    else splitAux sep fuel rest (c :: cur)

/-- Python `s.split(sep)` for a non-empty separator. -/
def py_split (s sep : String) : List String :=
  if sep.isEmpty then [s]
  else (splitAux sep.data s.data.length s.data []).map (fun cs => ⟨cs⟩)

/-- Python `s.upper()` (ASCII). -/
def py_upper (s : String) : String := ⟨s.data.map Char.toUpper⟩

/-- Python `s.replace("-", "_")`. -/
def py_replace_dash (s : String) : String :=
  ⟨s.data.map (fun c => if c = '-' then '_' else c)⟩

/-- Python `s.strip()`: whitespace removed from both ends. -/
def py_strip (s : String) : String :=
  ⟨((s.data.dropWhile Char.isWhitespace).reverse.dropWhile Char.isWhitespace).reverse⟩

/-- Right-trim of whitespace (the spec's "right-trimmed"). -/
def rstrip (s : String) : String :=
  ⟨(s.data.reverse.dropWhile Char.isWhitespace).reverse⟩

/-- A flat output row: the Python dict built by the normalizers, as an
association list with its literal keys in insertion order. -/
abbrev Row := List (String × JVal)

/-- An `Optional[str]` argument placed into a row cell. -/
def optStr : Option String → JVal
  | none => .null
  | some s => .str s

/-- Value of a row at a key (first match), `none` when the key is absent. -/
def row_get (row : Row) (k : String) : Option JVal :=
  (row.find? (fun kv => kv.1 = k)).map (·.2)

/-- Replace the value of the shared `extracted_at` field of a row. -/
def set_extracted_at (t : String) (row : Row) : Row :=
  row.map (fun kv => if kv.1 = "extracted_at" then (kv.1, JVal.str t) else kv)

/-- Outcome of one HTTP request attempt as seen inside an adapter's `try`
block: a parsed JSON body, an HTTP error status raised by
`raise_for_status` (the exception carries a response), or a transport-level
exception with no response attached. -/
inductive NetResult where
  | ok (body : JVal)
  | httpError (code : Int) (msg : String)
  | netError (msg : String)

/-- Whether the request attempt raised inside the `try` block. -/
def NetResult.isFailure : NetResult → Bool
  | .ok _ => false
  | _ => true

/-- Python truthiness of an `Optional[int]` in an `or` chain: `None` and
`0` are falsy. -/
def truthyInt : Option Int → Bool
  | none => false
  | some n => n != 0

/-- `max_workers = args.max_workers or cfg.get("max_workers") or <default>`
followed by `if max_workers < 1: max_workers = 1`
(price job lines 336-338 with default 8, details job lines 320-322 with
default 6). -/
def resolve_max_workers (args_mw cfg_mw : Option Int) (dflt : Int) : Int :=
  let m := if truthyInt args_mw then args_mw.getD 0
           else if truthyInt cfg_mw then cfg_mw.getD 0
           else dflt
  if m < 1 then 1 else m

/-- The env-var name derivation as §4.2 of the spec words it: upper-cased
with non-alphanumerics replaced by `_`. -/
def spec_env_name (s : String) : String :=
  ⟨s.data.map (fun c => if c.isAlphanum then c.toUpper else '_')⟩

/-- The secret resolver exactly as §4.2 of the spec words it, for
comparison with `PriceListing.load_secret`: environment variable (name
via `spec_env_name`), then mounted file, then remote store; the first
non-empty match is returned right-trimmed of whitespace, and a resolver
finding nothing fails. -/
def load_secret_spec (env file sm : String → Option String) (secret_name : String) :
    Except String String :=
  match [env (spec_env_name secret_name), file secret_name, sm secret_name].findSome?
      (fun o => match o with
        | some v => if v.isEmpty then none else some v
        | none => none) with
  | some v => .ok (rstrip v)
  | none => .error "CredentialNotFoundError"

namespace PriceListing
/-! Embedding of `src/ingestion/marketplace1_price_listing/fetch_marketplace1_price_listing.py`. -/

/-- The candidate environment-variable names tried by `load_secret`
(lines 31-35): the secret name upper-cased with `-` replaced by `_`, plus
fixed fallbacks when the name contains `username` / `password`. -/
def env_candidates (secret_name : String) : List String :=
  [py_replace_dash (py_upper secret_name)]
    ++ (if py_contains secret_name "username" then ["OXYLABS_USERNAME"] else [])
    ++ (if py_contains secret_name "password" then ["OXYLABS_PASSWORD"] else [])

/-- `load_secret` (lines 29-55).  `env`, `file` and `sm` model
`os.getenv`, the `/etc/secrets` mount and Secret Manager as partial maps;
`project_id` is `gcp_config.get("project_id")`.  `.error` stands for an
exception escaping the function.  Python's `.strip()` (both ends) is
`py_strip`; an environment hit is returned unmodified. -/
def load_secret (env file sm : String → Option String) (project_id : Option String)
    (secret_name : String) : Except String String :=
  match (env_candidates secret_name).findSome? (fun n =>
      match env n with
      | some v => if v.isEmpty then none else some v
      | none => none) with
  | some v => .ok v
  | none =>
    match file secret_name with
    | some contents => .ok (py_strip contents)
    | none =>
      match project_id with
      | none => .error "GCP project_id missing in gcp_config.yaml."
      | some pid =>
        if pid.isEmpty then .error "GCP project_id missing in gcp_config.yaml."
        else
          match sm secret_name with
          | some data => .ok (py_strip data)
          | none => .error "NotFound: secret version not found"

/-- The JSON payload posted by `call_oxylabs` (lines 116-121). -/
def oxylabs_payload (source domain asin : String) : JVal :=
  .obj [("source", .str source), ("domain", .str domain),
        ("query", .str asin), ("parse", .bool true)]

/-- `call_oxylabs` (lines 114-131): every exception inside the `try` is
converted to a structured error dict; `status_code` is `None` when the
exception carries no response. -/
def call_oxylabs (net : NetResult) : JVal :=
  match net with
  | .ok body => body
  | .httpError code msg => .obj [("error", .str msg), ("status_code", .num code)]
  | .netError msg => .obj [("error", .str msg), ("status_code", .null)]

/-- `extract_content` (lines 134-142): first element of `results`, then its
`content` field; `None` on any failure. -/
def extract_content (api_response : JVal) : Option JVal :=
  match api_response.get "results" with
  | some (.arr (r :: _)) => r.get "content"
  | _ => none

/-- One row of `flatten_pricing` (lines 154-176) for offer `offer` at
1-based position `offer_idx` and delivery option `d` at `delivery_idx`. -/
def offer_row (content offer : JVal) (category_label : String) (node_label : Option String)
    (extracted_at : String) (offer_idx delivery_idx : Nat) (d : JVal) : Row :=
  [("asin", content.getD "asin"),
   ("title", content.getD "title"),
   ("url", content.getD "url"),
   ("review_count", content.getD "review_count"),
   ("seller", offer.getD "seller"),
   ("price", offer.getD "price"),
   ("currency", offer.getD "currency"),
   ("price_shipping", offer.getD "price_shipping"),
   ("condition", offer.getD "condition"),
   ("rating_count", offer.getD "rating_count"),
   ("seller_id", offer.getD "seller_id"),
   ("seller_link", offer.getD "seller_link"),
   ("delivery", offer.getD "delivery"),
   ("delivery_type", if d.truthy then d.getD "type" else .null),
   ("delivery_date",
     if d.truthy then (match d.get "date" with | some dd => dd.getD "by" | none => .null)
     else .null),
   ("offer_position", .num offer_idx),
   ("delivery_option_position", if d.truthy then .num delivery_idx else .null),
   ("category_label", .str category_label),
   ("node_label", optStr node_label),
   ("extracted_at", .str extracted_at),
   ("pricing_status", .str "offer")]

/-- The offer list iterated by `flatten_pricing` (line 151):
`content.get("pricing", [])`. -/
def pricing_offers (content : JVal) : List JVal :=
  match content.get "pricing" with
  | some (.arr xs) => xs
  | _ => []

/-- The delivery options iterated for one offer (line 152):
`offer.get("delivery_options", [None])`. -/
def delivery_opts (offer : JVal) : List JVal :=
  match offer.get "delivery_options" with
  | some (.arr xs) => xs
  | some _ => []
  | none => [.null]

/-- The row list accumulated by the nested loops of `flatten_pricing`
(lines 150-177); `enumerate(..., start=1)` is `List.enumFrom 1`. -/
def pricing_rows (content : JVal) (category_label : String) (extracted_at : String)
    (node_label : Option String) : List Row :=
  (((pricing_offers content).enumFrom 1).map (fun oi =>
    ((delivery_opts oi.2).enumFrom 1).map (fun di =>
      offer_row content oi.2 category_label node_label extracted_at oi.1 di.1 di.2))).flatten

/-- `flatten_pricing` (lines 145-181). -/
def flatten_pricing (content : JVal) (category_label : String) (extracted_at : String)
    (node_label : Option String) : List Row :=
  if ¬ (content.truthy ∧ content.hasKey "pricing") then []
  else if (pricing_rows content category_label extracted_at node_label).isEmpty then []
  else pricing_rows content category_label extracted_at node_label

/-- `build_no_pricing_row` (lines 184-214). -/
def build_no_pricing_row (asin : String) (content : JVal) (category_label : String)
    (extracted_at : String) (node_label : Option String) : List Row :=
  let content := JVal.pyOr content (.obj [])
  let asin_val := JVal.pyOr (content.getD "asin") (.str asin)
  [[("asin", asin_val),
    ("title", content.getD "title"),
    ("url", content.getD "url"),
    ("review_count", content.getD "review_count"),
    ("seller", .null),
    ("price", .null),
    ("currency", .null),
    ("price_shipping", .null),
    ("condition", .null),
    ("rating_count", .null),
    ("seller_id", .null),
    ("seller_link", .null),
    ("delivery", .null),
    ("delivery_type", .null),
    ("delivery_date", .null),
    ("offer_position", .null),
    ("delivery_option_position", .null),
    ("category_label", .str category_label),
    ("node_label", optStr node_label),
    ("extracted_at", .str extracted_at),
    ("pricing_status", .str "no_offers")]]

/-- `build_error_row` (lines 217-246). -/
def build_error_row (asin : String) (category_label : String) (extracted_at : String)
    (node_label : Option String) (error_message : JVal) : List Row :=
  [[("asin", .str asin),
    ("title", .null),
    ("url", .null),
    ("review_count", .null),
    ("seller", .null),
    ("price", .null),
    ("currency", .null),
    ("price_shipping", .null),
    ("condition", .null),
    ("rating_count", .null),
    ("seller_id", .null),
    ("seller_link", .null),
    ("delivery", .null),
    ("delivery_type", .null),
    ("delivery_date", .null),
    ("offer_position", .null),
    ("delivery_option_position", .null),
    ("category_label", .str category_label),
    ("node_label", optStr node_label),
    ("extracted_at", .str extracted_at),
    ("pricing_status", .str "error"),
    ("error_message", error_message)]]

/-- `process_asin` (lines 263-293), given the adapter's response `resp`
(the value of `call_oxylabs`, which never raises).  Returns the per-item
DataFrame as a list of rows and the captured error, mirroring the Python
`(df, error)` pair.  The throttle sleep has no data effect. -/
def process_asin (asin : String) (resp : JVal) (category_label : String)
    (node_label : Option String) (extracted_at : String) : List Row × Option JVal :=
  if resp.hasKey "error" ∧ ¬ resp.hasKey "results" then
    let err_msg := (resp.get "error").getD (.str "Oxylabs error")
    (build_error_row asin category_label extracted_at node_label err_msg, some err_msg)
  else
    let content := (extract_content resp).getD .null
    let df := flatten_pricing content category_label extracted_at node_label
    let df := if df.isEmpty then build_no_pricing_row asin content category_label extracted_at node_label
              else df
    (df, none)

/-- What `future.result()` yields for one item in `main`'s collection loop
(lines 403-421): either the `(df, error)` pair returned by `process_asin`
(the DataFrame rendered as `Option (List Row)` so the loop's
`df_offer is None` test is expressible), or an exception. -/
inductive FutResult where
  | ok (df : Option (List Row)) (error : Option JVal)
  | exn (msg : String)

/-- The `as_completed` collection loop of `main` (lines 403-421), applied to
the sequence of worker completions in completion order; each completion is
tagged with the 0-based input position of its item.  Emitted rows keep the
tag of the item they derive from.  An exceptional future, a `None`
DataFrame, or an empty DataFrame adds the item to `failures` and emits no
rows; otherwise the item's rows are appended, in completion order. -/
def collect_results : List (Nat × FutResult) → List (Nat × Row) × List Nat
  | [] => ([], [])
  | (i, r) :: rest =>
    let acc := collect_results rest
    match r with
    | .exn _ => (acc.1, i :: acc.2)
    | .ok df _err =>
      match df with
      | none => (acc.1, i :: acc.2)
      | some d =>
        if d.isEmpty then (acc.1, i :: acc.2)
        else (d.map (fun row => (i, row)) ++ acc.1, acc.2)

/-- How `main` terminates. -/
inductive RunExit where
  | normal
  | fatal (msg : String)

/-- Tail of `main` (lines 375-447): an empty input list logs a warning and
returns normally (lines 375-377); a non-empty input list with an empty
`all_dfs` exits fatally (lines 426-427); otherwise the concatenated rows
are saved and the run completes normally. -/
def main_outcome (inputs : List String) (completions : List (Nat × FutResult)) :
    RunExit × List (Nat × Row) :=
  if inputs.isEmpty then (.normal, [])
  else
    let acc := collect_results completions
    if acc.1.isEmpty then
      (.fatal "No data to save (all requests failed or returned empty).", [])
    else (.normal, acc.1)

end PriceListing

namespace ProductDetails
/-! Embedding of `src/ingestion/marketplace1_product_details/fetch_marketplace1_product_details.py`. -/

/-- `load_secret` (lines 29-44): mounted file, then Secret Manager — this
variant consults no environment variable.  `.error` stands for an
exception escaping the function. -/
def load_secret (file sm : String → Option String) (project_id : Option String)
    (secret_name : String) : Except String String :=
  match file secret_name with
  | some contents => .ok (py_strip contents)
  | none =>
    match project_id with
    | none => .error "GCP project_id missing in gcp_config.yaml."
    | some pid =>
      if pid.isEmpty then .error "GCP project_id missing in gcp_config.yaml."
      else
        match sm secret_name with
        | some data => .ok (py_strip data)
        | none => .error "NotFound: secret version not found"

/-- The JSON payload posted by `call_oxylabs` (lines 76-83), with the
optional `locale` added only when truthy. -/
def oxylabs_payload (source domain asin : String) (locale : Option String) : JVal :=
  .obj ([("source", .str source), ("domain", .str domain),
         ("query", .str asin), ("parse", .bool true)]
    ++ (match locale with
        | some l => if l.isEmpty then [] else [("locale", .str l)]
        | none => []))

/-- `call_oxylabs` (lines 74-93): identical error capture to the price job. -/
def call_oxylabs (net : NetResult) : JVal :=
  match net with
  | .ok body => body
  | .httpError code msg => .obj [("error", .str msg), ("status_code", .num code)]
  | .netError msg => .obj [("error", .str msg), ("status_code", .null)]

/-- The inner `extract_content` of `normalize_records` (lines 101-108). -/
def extract_content (payload : JVal) : Option JVal :=
  match payload.get "results" with
  | some (.arr (r :: _)) => r.get "content"
  | _ => none

/-- The inner `_j` of `normalize_records` (lines 110-111):
`json.dumps(obj)` when the value is not `None`, else `None`. -/
def jdump : JVal → JVal
  | .null => .null
  | v => .str (jser v)

/-- A JSON value rendered as the Python string it would contribute to
`"\n".join(...)`. -/
def as_str : JVal → String
  | .str s => s
  | v => jser v

/-- `bullet_points` handling (lines 158-162): a list is joined over its
truthy entries; any other value is kept as is. -/
def bullet_points_joined (bp : JVal) : JVal :=
  match bp with
  | .arr xs => .str (String.intercalate "\n" ((xs.filter JVal.truthy).map as_str))
  | v => v

/-- `main_image` selection (lines 163-169): first truthy element of the
`images` list, else `None`. -/
def main_image_of (images : JVal) : JVal :=
  match images with
  | .arr xs => (xs.find? JVal.truthy).getD .null
  | _ => .null

/-- Selected variation (lines 172-179): first entry whose `selected` field
is truthy. -/
def selected_variation (variation : JVal) : Option JVal :=
  match variation with
  | .arr xs => xs.find? (fun v => (v.getD "selected").truthy)
  | _ => none

/-- The per-item status classification of `normalize_records`
(lines 114-125): `(item_status, error_message, content)`. -/
def classify (payload : JVal) : String × JVal × JVal :=
  if payload.hasKey "error" ∧ ¬ payload.hasKey "results" then
    ("error", payload.getD "error", .obj [])
  else
    let content := JVal.pyOr ((extract_content payload).getD .null) (.obj [])
    if content.truthy then ("ok", .null, content) else ("no_content", .null, content)

/-- One row of `normalize_records` (lines 113-246) for the pair
`(asin, payload)`.  The run timestamp `extracted_at`, computed once by
`datetime.now(timezone.utc).isoformat()` at line 99, is lifted to a
parameter. -/
def make_row (category_label : String) (node_label : Option String) (extracted_at : String)
    (asin : String) (payload : JVal) : Row :=
  let scc := classify payload
  let status := scc.1
  let error_message := scc.2.1
  let content := scc.2.2
  let status_code := payload.getD "status_code"
  let category_value := JVal.pyOr (content.getD "category") (.str category_label)
  let asin_val := JVal.pyOr (content.getD "asin")
    (JVal.pyOr (content.getD "asin_in_url") (.str asin))
  let review_count := JVal.pyOr (content.getD "review_count") (content.getD "reviews_count")
  let images := content.getD "images"
  let variation := JVal.pyOr (content.getD "variation") (.arr [])
  let sel := selected_variation variation
  let variation_selected_asin := match sel with | some v => v.getD "asin" | none => .null
  let variation_selected_dimensions :=
    match sel with | some v => v.getD "dimensions" | none => .null
  [("asin", asin_val),
   ("category_label", .str category_label),
   ("extracted_at", .str extracted_at),
   ("node", optStr node_label),
   ("title", content.getD "title"),
   ("brand", content.getD "brand"),
   ("url", content.getD "url"),
   ("page_type", content.getD "page_type"),
   ("stock", content.getD "stock"),
   ("price", content.getD "price"),
   ("price_upper", content.getD "price_upper"),
   ("price_initial", content.getD "price_initial"),
   ("price_shipping", content.getD "price_shipping"),
   ("price_buybox", content.getD "price_buybox"),
   ("price_sns", content.getD "price_sns"),
   ("currency", content.getD "currency"),
   ("rating", content.getD "rating"),
   ("review_count", review_count),
   ("sales_volume", content.getD "sales_volume"),
   ("parent_asin", content.getD "parent_asin"),
   ("product_name", content.getD "product_name"),
   ("description", content.getD "description"),
   ("coupon", content.getD "coupon"),
   ("store_url", content.getD "store_url"),
   ("pricing_url", content.getD "pricing_url"),
   ("pricing_str", content.getD "pricing_str"),
   ("manufacturer", content.getD "manufacturer"),
   ("category", jdump category_value),
   ("is_prime_eligible", content.getD "is_prime_eligible"),
   ("has_videos", content.getD "has_videos"),
   ("images", jdump images),
   ("main_image", main_image_of images),
   ("bullet_points", bullet_points_joined (content.getD "bullet_points")),
   ("variation_selected_asin", variation_selected_asin),
   ("variation_selected_dimensions", jdump variation_selected_dimensions),
   ("variation_all", jdump variation),
   ("sales_rank", jdump (content.getD "sales_rank")),
   ("delivery", jdump (content.getD "delivery")),
   ("buybox", jdump (content.getD "buybox")),
   ("rating_stars_distribution", jdump (content.getD "rating_stars_distribution")),
   ("product_details", jdump (content.getD "product_details")),
   ("product_overview", jdump (content.getD "product_overview")),
   ("technical_details", jdump (content.getD "technical_details")),
   ("other_sellers", content.getD "other_sellers"),
   ("sns_discounts", jdump (content.getD "sns_discounts")),
   ("answered_questions_count", content.getD "answered_questions_count"),
   ("item_status", .str status),
   ("error_message", error_message),
   ("status_code", status_code),
   ("payload_raw", .str (jser payload))]

/-- `normalize_records` (lines 96-247): `zip(input_items, raw_records)`
mapped through the row builder, in input order. -/
def normalize_records (raw_records : List JVal) (input_items : List String)
    (category_label : String) (node_label : Option String) (extracted_at : String) :
    List Row :=
  (input_items.zip raw_records).map (fun p =>
    make_row category_label node_label extracted_at p.1 p.2)

/-- What `future.result()` yields for one item in `main`'s collection loop
(lines 377-392): the payload returned by `process_asin`, or an exception. -/
inductive FutResult where
  | ok (payload : JVal)
  | exn (msg : String)

/-- Assignment `d[k] = v` on a Python dict rendered as an association
list: an existing key (keys are unique) is overwritten in place, a new
key is appended at the end, matching Python dict insertion order. -/
def dict_insert : List (String × JVal) → String → JVal → List (String × JVal)
  | [], k, v => [(k, v)]
  | kv :: rest, k, v => if kv.1 = k then (k, v) :: rest else kv :: dict_insert rest k v

/-- `d.get(k)` on the same association-list rendering of a dict. -/
def dict_find (store : List (String × JVal)) (k : String) : Option JVal :=
  (store.find? (fun kv => kv.1 = k)).map (·.2)

/-- The per-completion payload conversion of `main` (lines 379-388): an
exception becomes `{"error": str(exc)}` and a `None` payload becomes
`{"error": "Empty payload"}`. -/
def convert_result : FutResult → JVal
  | .exn msg => .obj [("error", .str msg)]
  | .ok p =>
    match p with
    | .null => .obj [("error", .str "Empty payload")]
    | p => p

/-- The `as_completed` loop of `main` (lines 377-395) building
`payloads_by_asin`: completions arrive in arbitrary order, each tagged
with the input position of its item; the dict is keyed by the item string
`inputs[i]`, so a later completion of a duplicated string overwrites the
earlier one. -/
def collect_payloads (inputs : List String) (completions : List (Nat × FutResult)) :
    List (String × JVal) :=
  completions.foldl (fun store c =>
    dict_insert store (inputs.getD c.1 "") (convert_result c.2)) []

/-- The order-restoring reassembly of `main` (line 398):
`[payloads_by_asin.get(asin, {"error": "Missing result"}) for asin in inputs]`. -/
def reassemble (inputs : List String) (store : List (String × JVal)) : List JVal :=
  inputs.map (fun asin =>
    (dict_find store asin).getD (.obj [("error", .str "Missing result")]))

/-- `main`'s fetch-and-normalize pipeline (lines 356-400) from the resolved
inputs and a completion sequence to the normalized rows. -/
def main_rows (inputs : List String) (completions : List (Nat × FutResult))
    (category_label : String) (node_label : Option String) (extracted_at : String) :
    List Row :=
  normalize_records (reassemble inputs (collect_payloads inputs completions)) inputs
    category_label node_label extracted_at

/-- The completion that wrote `payloads_by_asin[a]` last: the latest entry
in completion order whose item string is `a`. -/
def last_completion_for (inputs : List String) (completions : List (Nat × FutResult))
    (a : String) : Option (Nat × FutResult) :=
  completions.reverse.find? (fun c => inputs.getD c.1 "" = a)

end ProductDetails

namespace M2Details
/-! Embedding of `src/ingestion/marketplace2_product_details/fetch_marketplace2_product_details.py`. -/

/-- `load_axesso_api_key` (lines 29-44): mounted file, then Secret Manager;
no environment tier. -/
def load_axesso_api_key (file sm : String → Option String) (project_id : Option String)
    (secret_name : String) : Except String String :=
  match file secret_name with
  | some contents => .ok (py_strip contents)
  | none =>
    match project_id with
    | none => .error "GCP project_id missing in gcp_config.yaml."
    | some pid =>
      if pid.isEmpty then .error "GCP project_id missing in gcp_config.yaml."
      else
        match sm secret_name with
        | some data => .ok (py_strip data)
        | none => .error "NotFound: secret version not found"

/-- `_encode_otto_url` (lines 73-77): `url.split("://", 1)` unpacked into
scheme and rest; `none` models the ValueError raised when the separator is
absent.  The rest is percent-encoded with `safe="="`. -/
def encode_otto_url (url : String) : Option String :=
  match py_split url "://" with
  | [] => none
  | [_] => none
  | scheme :: rest =>
    some (scheme ++ ":%2F%2F" ++ quoteSafeEq (String.intercalate "://" rest))

/-- `call_axesso` (lines 80-95).  The URL encoding runs before the `try`
block, so its ValueError propagates (`Except.error`); everything inside
the `try` is converted to a structured error dict. -/
def call_axesso (endpoint api_key : String) (item : String) (net : NetResult) :
    Except String JVal :=
  match encode_otto_url item with
  | none => .error "ValueError: not enough values to unpack (expected 2, got 1)"
  | some encoded_url =>
    let _headers := [("axesso-api-key", api_key), ("Cache-Control", "no-cache")]
    let _request_url := endpoint ++ "?url=" ++ encoded_url
    .ok (match net with
      | .ok body => body
      | .httpError code msg => .obj [("error", .str msg), ("status_code", .num code)]
      | .netError msg => .obj [("error", .str msg), ("status_code", .null)])

/-- `normalize_records` (lines 98-111): one row per `(item, payload)` pair
with the raw payload attached; the run timestamp is lifted to a
parameter. -/
def normalize_records (raw_records : List JVal) (input_items : List String)
    (category_label : String) (extracted_at : String) : List Row :=
  (input_items.zip raw_records).map (fun p =>
    [("input_value", .str p.1),
     ("category_label", .str category_label),
     ("extracted_at", .str extracted_at),
     ("payload", p.2)])

end M2Details

/-- One response of `search.get_dict()` as the pagination loops observe it:
whether it carries an `"error"` key, and the `serpapi_pagination` block —
`none` when there is no `"next"` entry, `some pOpt` when `"next"` is
present with `pOpt` the parsed `page` query parameter (`none` when the
parameter is absent or not an integer). -/
structure PageResp where
  has_error : Bool
  next : Option (Option Int)

namespace ProductListing
/-! Embedding of `src/ingestion/marketplace1_product_listing/fetch_marketplace1_product_listing.py`. -/

/-- The effective page limit of `fetch_all_product_pages` (lines 76-85):
`None`, non-positive, or above the hard limit of 100 falls back to 100. -/
def effective_max_pages (max_pages : Option Int) : Int :=
  match max_pages with
  | none => 100
  | some v => if v ≤ 0 ∨ v > 100 then 100 else v

/-- The `while True` fetch loop (lines 106-160).  `resp k` is the k-th
response; pages are recorded by their call index.  After appending a page
the loop breaks once `page_num >= effective_max_pages` or when no `next`
link remains; otherwise `page_num` is re-synced to the page number
reported by the provider's next URL (lines 148-153), falling back to
`page_num + 1` when that parameter is missing or malformed.  `fuel` bounds
the unrolling; `none` means the loop was still running when fuel ran out. -/
def fetch_loop (resp : Nat → PageResp) (eff : Int) :
    Nat → Nat → Int → List Nat → Option (Except String (List Nat))
  | 0, _, _, _ => none
  | fuel + 1, k, page_num, acc =>
    let r := resp k
    if r.has_error then some (.error "API Error")
    else
      let acc := acc ++ [k]
      if eff ≠ 0 ∧ eff ≤ page_num then some (.ok acc)
      else
        match r.next with
        | none => some (.ok acc)
        | some pOpt =>
          let next_page := match pOpt with | some p => p | none => page_num + 1
          fetch_loop resp eff fuel (k + 1) next_page acc

/-- `fetch_all_product_pages` (lines 58-160) restricted to its fetch loop:
starts at `page_num = 1` with no pages accumulated. -/
def fetch_all_product_pages (resp : Nat → PageResp) (max_pages : Option Int)
    (fuel : Nat) : Option (Except String (List Nat)) :=
  fetch_loop resp (effective_max_pages max_pages) fuel 0 1 []

/-- Number of pages returned by a terminating run, `0` when the run errored
out or ran out of fuel. -/
def pages_returned (o : Option (Except String (List Nat))) : Nat :=
  match o with
  | some (.ok l) => l.length
  | _ => 0

end ProductListing

namespace JobsListing
/-! Embedding of `src/ingestion/jobs/fetch_marketplace1_listing.py`. -/

/-- The effective page limit (lines 46-55), identical to the
`marketplace1_product_listing` variant. -/
def effective_max_pages (max_pages : Option Int) : Int :=
  match max_pages with
  | none => 100
  | some v => if v ≤ 0 ∨ v > 100 then 100 else v

/-- The `while True` fetch loop (lines 74-115) of the `jobs/` variant: the
page counter is always incremented locally (`page_num += 1`, line 108),
never taken from the provider. -/
def fetch_loop (resp : Nat → PageResp) (eff : Int) :
    Nat → Nat → Int → List Nat → Option (Except String (List Nat))
  | 0, _, _, _ => none
  | fuel + 1, k, page_num, acc =>
    let r := resp k
    if r.has_error then some (.error "API Error")
    else
      let acc := acc ++ [k]
      if eff ≠ 0 ∧ eff ≤ page_num then some (.ok acc)
      else
        match r.next with
        | none => some (.ok acc)
        | some _ => fetch_loop resp eff fuel (k + 1) (page_num + 1) acc

/-- `fetch_all_product_pages` (lines 28-115) restricted to its fetch loop. -/
def fetch_all_product_pages (resp : Nat → PageResp) (max_pages : Option Int)
    (fuel : Nat) : Option (Except String (List Nat)) :=
  fetch_loop resp (effective_max_pages max_pages) fuel 0 1 []

end JobsListing

/-! ## Claim C10: page cap -/

/-- Invariant of the `jobs/` fetch loop: the locally incremented page
counter bounds how many more pages can be appended before the limit
check `page_num >= effective_max_pages` fires. -/
theorem jobs_fetch_loop_length_le (resp : Nat → PageResp) (eff : Int) (heff : 1 ≤ eff) :
    ∀ (fuel k : Nat) (page_num : Int) (acc l : List Nat),
      JobsListing.fetch_loop resp eff fuel k page_num acc = some (Except.ok l) →
      l.length ≤ acc.length + (eff - page_num).toNat + 1 := by
  intro fuel
  induction fuel with
  | zero =>
    intro k pn acc l h
    simp [JobsListing.fetch_loop] at h
  | succ fuel ih =>
    intro k pn acc l h
    simp only [JobsListing.fetch_loop] at h
    by_cases he : (resp k).has_error = true
    · rw [if_pos he] at h
      simp at h
    · rw [if_neg he] at h
      by_cases hbrk : eff ≠ 0 ∧ eff ≤ pn
      · rw [if_pos hbrk] at h
        simp only [Option.some.injEq, Except.ok.injEq] at h
        subst h
        simp only [List.length_append, List.length_cons, List.length_nil]
        omega
      · rw [if_neg hbrk] at h
        have hlt : pn < eff := by
          by_contra hge
          exact hbrk ⟨by omega, by omega⟩
        cases hn : (resp k).next with
        | none =>
          rw [hn] at h
          simp only [Option.some.injEq, Except.ok.injEq] at h
          subst h
          simp only [List.length_append, List.length_cons, List.length_nil]
          omega
        | some pOpt =>
          rw [hn] at h
          have := ih (k + 1) (pn + 1) (acc ++ [k]) l h
          simp at this
          omega

/-- C10 (counterexample): the claim says `fetch_all_product_pages` never
returns more than 100 pages.  In the `marketplace1_product_listing`
variant the page counter is re-synced from the provider's next URL, so a
provider whose next links keep reporting `page=1` for 150 responses and
then stop makes the function return 151 pages — above the hard limit of
100 that `max_pages = None` resolves to. -/
theorem claim10_counterexample :
    ProductListing.pages_returned
      (ProductListing.fetch_all_product_pages
        (fun k => ⟨false, if k < 150 then some (some 1) else none⟩) none 200) = 151 ∧
    ProductListing.effective_max_pages none = 100 ∧ (100 : Nat) < 151 := by
  refine ⟨by decide, rfl, by decide⟩

/-- C10 (amended): the effective page limit is computed as claimed in both
variants — a `max_pages` of `None`, `≤ 0`, or `> 100` becomes 100, a value
in `[1, 100]` is used as given — and in the `jobs/` variant, whose page
counter is incremented locally, the returned list never exceeds the
effective limit; the `marketplace1_product_listing` variant re-syncs its
counter from the provider's reported page number and can exceed the
limit. -/
theorem claim10_page_cap_amended :
    (∀ mp : Option Int, 1 ≤ ProductListing.effective_max_pages mp ∧
      ProductListing.effective_max_pages mp ≤ 100) ∧
    ProductListing.effective_max_pages none = 100 ∧
    (∀ v : Int, v ≤ 0 → ProductListing.effective_max_pages (some v) = 100) ∧
    (∀ v : Int, 100 < v → ProductListing.effective_max_pages (some v) = 100) ∧
    (∀ v : Int, 1 ≤ v → v ≤ 100 → ProductListing.effective_max_pages (some v) = v) ∧
    (∀ mp : Option Int, JobsListing.effective_max_pages mp =
      ProductListing.effective_max_pages mp) ∧
    (∀ (resp : Nat → PageResp) (mp : Option Int) (fuel : Nat) (l : List Nat),
      JobsListing.fetch_all_product_pages resp mp fuel = some (Except.ok l) →
      l.length ≤ (JobsListing.effective_max_pages mp).toNat) := by
  have hbounds : ∀ mp : Option Int, 1 ≤ ProductListing.effective_max_pages mp ∧
      ProductListing.effective_max_pages mp ≤ 100 := by
    intro mp
    cases mp with
    | none => exact ⟨by norm_num [ProductListing.effective_max_pages],
        by norm_num [ProductListing.effective_max_pages]⟩
    | some v =>
      simp only [ProductListing.effective_max_pages]
      by_cases hv : v ≤ 0 ∨ v > 100
      · rw [if_pos hv]; omega
      · rw [if_neg hv]; omega
  refine ⟨hbounds, rfl, ?_, ?_, ?_, fun mp => rfl, ?_⟩
  · intro v hv
    simp only [ProductListing.effective_max_pages]
    rw [if_pos (Or.inl hv)]
  · intro v hv
    simp only [ProductListing.effective_max_pages]
    rw [if_pos (Or.inr hv)]
  · intro v h1 h2
    simp only [ProductListing.effective_max_pages]
    rw [if_neg (by omega)]
  · intro resp mp fuel l h
    have hEq : JobsListing.effective_max_pages mp = ProductListing.effective_max_pages mp := rfl
    have heff := hbounds mp
    have hlen := jobs_fetch_loop_length_le resp (JobsListing.effective_max_pages mp)
      (by rw [hEq]; exact heff.1) fuel 0 1 [] l h
    rw [hEq] at hlen ⊢
    simp only [List.length_nil] at hlen
    omega

/-- Witness for `claim10_page_cap_amended` at concrete inputs. -/
theorem claim10_page_cap_amended_witness :
    ProductListing.effective_max_pages (some 0) = 100 ∧
    ProductListing.effective_max_pages (some 250) = 100 ∧
    ProductListing.effective_max_pages (some 7) = 7 ∧
    ([0, 1, 2] : List Nat).length ≤ (JobsListing.effective_max_pages (some 3)).toNat :=
  ⟨claim10_page_cap_amended.2.2.1 0 (by decide),
   claim10_page_cap_amended.2.2.2.1 250 (by decide),
   claim10_page_cap_amended.2.2.2.2.1 7 (by decide) (by decide),
   claim10_page_cap_amended.2.2.2.2.2.2
     (fun _ => ⟨false, some none⟩) (some 3) 10 [0, 1, 2] rfl⟩

/-! ## Claim C3: adapter error capture -/

/-- C3 (counterexample): `call_axesso` runs `_encode_otto_url` before its
`try` block, and an item without `"://"` makes the unpacking raise a
ValueError that propagates to the caller instead of being returned as a
structured error dict. -/
theorem claim3_counterexample :
    M2Details.call_axesso "https://api.axesso.de/otto" "key" "not-a-url"
      (NetResult.ok (JVal.obj [])) =
    Except.error "ValueError: not enough values to unpack (expected 2, got 1)" := rfl

/-- C3 (amended): `call_oxylabs` of both marketplace1 jobs never raises —
any exception inside the request yields a dict with `error` and
`status_code` keys; `call_axesso` likewise captures every exception of
request execution, but only for items containing `"://"`, because URL
encoding precedes its `try` block. -/
theorem claim3_adapter_errors_amended :
    (∀ net : NetResult, net.isFailure = true →
      (PriceListing.call_oxylabs net).hasKey "error" = true ∧
      (PriceListing.call_oxylabs net).hasKey "status_code" = true) ∧
    (∀ net : NetResult, net.isFailure = true →
      (ProductDetails.call_oxylabs net).hasKey "error" = true ∧
      (ProductDetails.call_oxylabs net).hasKey "status_code" = true) ∧
    (∀ (endpoint key item : String) (net : NetResult),
      2 ≤ (py_split item "://").length →
      ∃ body : JVal, M2Details.call_axesso endpoint key item net = Except.ok body ∧
        (net.isFailure = true → body.hasKey "error" = true)) := by
  refine ⟨fun net h => ?_, fun net h => ?_, fun endpoint key item net h => ?_⟩
  · cases net <;> simp_all [PriceListing.call_oxylabs, JVal.hasKey, NetResult.isFailure]
  · cases net <;> simp_all [ProductDetails.call_oxylabs, JVal.hasKey, NetResult.isFailure]
  · match hs : py_split item "://" with
    | [] => rw [hs] at h; simp at h
    | [_] => rw [hs] at h; simp at h
    | scheme :: r :: rest =>
      cases net with
      | ok body =>
        refine ⟨body, ?_, ?_⟩
        · simp [M2Details.call_axesso, M2Details.encode_otto_url, hs]
        · intro hf
          simp [NetResult.isFailure] at hf
      | httpError code msg =>
        refine ⟨JVal.obj [("error", .str msg), ("status_code", .num code)], ?_, ?_⟩
        · simp [M2Details.call_axesso, M2Details.encode_otto_url, hs]
        · intro hf
          simp [JVal.hasKey]
      | netError msg =>
        refine ⟨JVal.obj [("error", .str msg), ("status_code", .null)], ?_, ?_⟩
        · simp [M2Details.call_axesso, M2Details.encode_otto_url, hs]
        · intro hf
          simp [JVal.hasKey]

/-- Witness for `claim3_adapter_errors_amended` at concrete inputs. -/
theorem claim3_adapter_errors_amended_witness :
    ((PriceListing.call_oxylabs (NetResult.netError "connection reset")).hasKey "error" = true ∧
      (PriceListing.call_oxylabs (NetResult.netError "connection reset")).hasKey
        "status_code" = true) ∧
    ((ProductDetails.call_oxylabs (NetResult.httpError 500 "server error")).hasKey
        "error" = true ∧
      (ProductDetails.call_oxylabs (NetResult.httpError 500 "server error")).hasKey
        "status_code" = true) ∧
    (∃ body : JVal,
      M2Details.call_axesso "ep" "k" "https://www.otto.de/p" (NetResult.netError "timeout") =
        Except.ok body ∧
      ((NetResult.netError "timeout").isFailure = true → body.hasKey "error" = true)) :=
  ⟨claim3_adapter_errors_amended.1 (NetResult.netError "connection reset") rfl,
   claim3_adapter_errors_amended.2.1 (NetResult.httpError 500 "server error") rfl,
   claim3_adapter_errors_amended.2.2 "ep" "k" "https://www.otto.de/p"
     (NetResult.netError "timeout") (by decide)⟩

/-! ## Claim C4: zero-output runs -/

/-- C4 (counterexample): an empty resolved input list makes the
price-listing `main` log a warning and return normally with zero rows — a
silent success with no output written, not a configuration-level
failure. -/
theorem claim4_counterexample :
    PriceListing.main_outcome [] [] = (PriceListing.RunExit.normal, []) := rfl

/-- C4 (amended): with a non-empty input list, a price-listing run that
collects zero rows exits fatally via `sys.exit`; an empty resolved input
list instead returns normally with zero rows and no output written. -/
theorem claim4_zero_rows_amended :
    (∀ (inputs : List String) (completions : List (Nat × PriceListing.FutResult)),
      inputs ≠ [] →
      (PriceListing.main_outcome inputs completions).2 = [] →
      (PriceListing.main_outcome inputs completions).1 =
        PriceListing.RunExit.fatal
          "No data to save (all requests failed or returned empty).") ∧
    (∀ completions : List (Nat × PriceListing.FutResult),
      PriceListing.main_outcome [] completions = (PriceListing.RunExit.normal, [])) := by
  constructor
  · intro inputs completions hne hrows
    have h1 : inputs.isEmpty = false := by
      cases inputs with
      | nil => exact absurd rfl hne
      | cons a l => rfl
    by_cases hr : (PriceListing.collect_results completions).1.isEmpty
    · simp [PriceListing.main_outcome, h1, hr]
    · exfalso
      simp [PriceListing.main_outcome, h1, hr] at hrows
      simp [hrows] at hr
  · intro completions
    rfl

/-- Witness for `claim4_zero_rows_amended` at concrete inputs. -/
theorem claim4_zero_rows_amended_witness :
    (PriceListing.main_outcome ["B07XAMPLE"] [(0, PriceListing.FutResult.exn "boom")]).1 =
      PriceListing.RunExit.fatal
        "No data to save (all requests failed or returned empty)." ∧
    PriceListing.main_outcome [] [(0, PriceListing.FutResult.exn "boom")] =
      (PriceListing.RunExit.normal, []) :=
  ⟨claim4_zero_rows_amended.1 ["B07XAMPLE"] [(0, PriceListing.FutResult.exn "boom")]
      (by decide) rfl,
   claim4_zero_rows_amended.2 [(0, PriceListing.FutResult.exn "boom")]⟩

/-! ## Claim C5: secret resolver -/

/-- C5 (counterexample): for the logical name `s` present in the
environment as `S = "v "`, the code returns the environment value with its
trailing whitespace intact, while the spec's resolver returns it
right-trimmed. -/
theorem claim5_counterexample :
    PriceListing.load_secret (fun n => if n = "S" then some "v " else none)
      (fun _ => none) (fun _ => none) (some "proj") "s" = Except.ok "v " ∧
    load_secret_spec (fun n => if n = "S" then some "v " else none)
      (fun _ => none) (fun _ => none) "s" = Except.ok "v" ∧
    ("v " : String) ≠ "v" := ⟨rfl, rfl, by decide⟩

/-- C5 (amended): the price-listing resolver checks environment variables
named by upper-casing the logical name with only `-` replaced by `_` (plus
`OXYLABS_USERNAME` / `OXYLABS_PASSWORD` fallbacks when the name contains
`username` / `password`), returning a non-empty hit unmodified; it then
returns the mounted file's content stripped on both ends, then the Secret
Manager value stripped on both ends, and raises when all tiers miss.  The
details-job and marketplace2 resolvers check only file then Secret
Manager, with no environment tier. -/
theorem claim5_secret_resolver_amended :
    (∀ env file sm proj name v, env (py_replace_dash (py_upper name)) = some v → v ≠ "" →
      PriceListing.load_secret env file sm proj name = Except.ok v) ∧
    (∀ env file sm proj name c, (∀ k, env k = none) → file name = some c →
      PriceListing.load_secret env file sm proj name = Except.ok (py_strip c)) ∧
    (∀ env file sm pid name c, (∀ k, env k = none) → file name = none → pid ≠ "" →
      sm name = some c →
      PriceListing.load_secret env file sm (some pid) name = Except.ok (py_strip c)) ∧
    (∀ env file sm pid name, (∀ k, env k = none) → file name = none → pid ≠ "" →
      sm name = none →
      PriceListing.load_secret env file sm (some pid) name =
        Except.error "NotFound: secret version not found") ∧
    (∀ file sm proj name c, file name = some c →
      ProductDetails.load_secret file sm proj name = Except.ok (py_strip c)) ∧
    (∀ file sm pid name c, file name = none → pid ≠ "" → sm name = some c →
      M2Details.load_axesso_api_key file sm (some pid) name = Except.ok (py_strip c)) := by
  have hempty : ∀ (env : String → Option String) name, (∀ k, env k = none) →
      (PriceListing.env_candidates name).findSome? (fun n =>
        match env n with
        | some v => if v.isEmpty then none else some v
        | none => none) = none := by
    intro env name henv
    induction PriceListing.env_candidates name with
    | nil => rfl
    | cons a l ih => simp [List.findSome?_cons, henv a, ih]
  refine ⟨?_, ?_, ?_, ?_, ?_, ?_⟩
  · intro env file sm proj name v hv hne
    have : v.isEmpty = false := by
      cases hroot : v.isEmpty
      · rfl
      · exact absurd ((String.isEmpty_iff v).mp hroot) hne
    simp [PriceListing.load_secret, PriceListing.env_candidates, List.findSome?_cons, hv, this]
  · intro env file sm proj name c henv hfile
    simp [PriceListing.load_secret, hempty env name henv, hfile]
  · intro env file sm pid name c henv hfile hpid hsm
    have : pid.isEmpty = false := by
      cases hroot : pid.isEmpty
      · rfl
      · exact absurd ((String.isEmpty_iff pid).mp hroot) hpid
    simp [PriceListing.load_secret, hempty env name henv, hfile, this, hsm]
  · intro env file sm pid name henv hfile hpid hsm
    have : pid.isEmpty = false := by
      cases hroot : pid.isEmpty
      · rfl
      · exact absurd ((String.isEmpty_iff pid).mp hroot) hpid
    simp [PriceListing.load_secret, hempty env name henv, hfile, this, hsm]
  · intro file sm proj name c hfile
    simp [ProductDetails.load_secret, hfile]
  · intro file sm pid name c hfile hpid hsm
    have : pid.isEmpty = false := by
      cases hroot : pid.isEmpty
      · rfl
      · exact absurd ((String.isEmpty_iff pid).mp hroot) hpid
    simp [M2Details.load_axesso_api_key, hfile, this, hsm]

/-- Witness for `claim5_secret_resolver_amended` at concrete inputs. -/
theorem claim5_secret_resolver_amended_witness :
    PriceListing.load_secret (fun n => if n = "MY_SECRET" then some "ev" else none)
      (fun _ => none) (fun _ => none) (some "proj") "my-secret" = Except.ok "ev" ∧
    PriceListing.load_secret (fun _ => none) (fun n => if n = "my-secret" then some " fv\n" else none)
      (fun _ => none) (some "proj") "my-secret" = Except.ok (py_strip " fv\n") ∧
    PriceListing.load_secret (fun _ => none) (fun _ => none)
      (fun n => if n = "my-secret" then some " sv " else none) "proj" "my-secret" =
      Except.ok (py_strip " sv ") ∧
    PriceListing.load_secret (fun _ => none) (fun _ => none) (fun _ => none) "proj"
      "my-secret" = Except.error "NotFound: secret version not found" ∧
    ProductDetails.load_secret (fun n => if n = "my-secret" then some " fv " else none)
      (fun _ => none) (some "proj") "my-secret" = Except.ok (py_strip " fv ") ∧
    M2Details.load_axesso_api_key (fun _ => none)
      (fun n => if n = "my-secret" then some "kv" else none) "proj" "my-secret" =
      Except.ok (py_strip "kv") :=
  ⟨claim5_secret_resolver_amended.1 _ _ _ (some "proj") "my-secret" "ev" (by decide)
      (by decide),
   claim5_secret_resolver_amended.2.1 _ _ _ (some "proj") "my-secret" " fv\n"
      (fun k => rfl) rfl,
   claim5_secret_resolver_amended.2.2.1 _ _ _ "proj" "my-secret" " sv "
      (fun k => rfl) rfl (by decide) rfl,
   claim5_secret_resolver_amended.2.2.2.1 _ _ _ "proj" "my-secret"
      (fun k => rfl) rfl (by decide) rfl,
   claim5_secret_resolver_amended.2.2.2.2.1 _ _ (some "proj") "my-secret" " fv " rfl,
   claim5_secret_resolver_amended.2.2.2.2.2 _ _ "proj" "my-secret" "kv" rfl (by decide) rfl⟩

/-! ## Claims C7 and C8: normalizer properties -/

/-- A details-job row depends on the run timestamp only through its
`extracted_at` field. -/
theorem make_row_set_extracted_at (cat : String) (node : Option String)
    (t1 t2 asin : String) (payload : JVal) :
    set_extracted_at t2 (ProductDetails.make_row cat node t1 asin payload) =
    ProductDetails.make_row cat node t2 asin payload := by
  simp [ProductDetails.make_row, set_extracted_at]

/-- A price-listing offer row carries no raw-payload field. -/
theorem offer_row_no_payload_raw (content offer : JVal) (cat : String)
    (node : Option String) (t : String) (oi di : Nat) (d : JVal) :
    (row_get (PriceListing.offer_row content offer cat node t oi di d)
      "payload_raw").isNone = true := rfl

/-- No row produced by `flatten_pricing` has a `payload_raw` field. -/
theorem flatten_pricing_no_payload_raw (content : JVal) (cat t : String)
    (node : Option String) :
    ∀ row ∈ PriceListing.flatten_pricing content cat t node,
      (row_get row "payload_raw").isNone = true := by
  intro row hrow
  unfold PriceListing.flatten_pricing at hrow
  split at hrow
  · simp at hrow
  · split at hrow
    · simp at hrow
    · unfold PriceListing.pricing_rows at hrow
      obtain ⟨inner, hin, hrowin⟩ := List.mem_flatten.mp hrow
      obtain ⟨oi, _, rfl⟩ := List.mem_map.mp hin
      obtain ⟨di, _, rfl⟩ := List.mem_map.mp hrowin
      exact offer_row_no_payload_raw ..

/-- C8: the details-job and marketplace2 normalizers are deterministic
functions of their `(items, outcomes)` inputs modulo the shared
`extracted_at` timestamp: runs with different timestamps produce identical
rows once the `extracted_at` field is rewritten. -/
theorem claim8_normalization_deterministic :
    (∀ (raws : List JVal) (items : List String) (cat : String) (node : Option String)
        (t1 t2 : String),
      ProductDetails.normalize_records raws items cat node t2 =
        (ProductDetails.normalize_records raws items cat node t1).map
          (set_extracted_at t2)) ∧
    (∀ (raws : List JVal) (items : List String) (cat t1 t2 : String),
      M2Details.normalize_records raws items cat t2 =
        (M2Details.normalize_records raws items cat t1).map (set_extracted_at t2)) := by
  constructor
  · intro raws items cat node t1 t2
    simp only [ProductDetails.normalize_records, List.map_map]
    have : (set_extracted_at t2 ∘ fun p : String × JVal =>
        ProductDetails.make_row cat node t1 p.1 p.2) =
        fun p : String × JVal => ProductDetails.make_row cat node t2 p.1 p.2 := by
      funext p
      exact make_row_set_extracted_at cat node t1 t2 p.1 p.2
    rw [this]
  · intro raws items cat t1 t2
    simp only [M2Details.normalize_records, List.map_map]
    have : (set_extracted_at t2 ∘ fun p : String × JVal =>
        [("input_value", JVal.str p.1), ("category_label", JVal.str cat),
         ("extracted_at", JVal.str t1), ("payload", p.2)]) =
        fun p : String × JVal =>
        [("input_value", JVal.str p.1), ("category_label", JVal.str cat),
         ("extracted_at", JVal.str t2), ("payload", p.2)] := by
      funext p
      simp [set_extracted_at]
    rw [this]

/-- C7 (counterexample): a `flatten_pricing` row for a concrete content
block with one offer has exactly the flattened fields — no `payload_raw`
or `payload` field holds the serialized provider payload, so the
price-listing rows do not preserve the raw payload. -/
theorem claim7_counterexample :
    (PriceListing.flatten_pricing
        (JVal.obj [("asin", JVal.str "A1"),
          ("pricing", JVal.arr [JVal.obj [("seller", JVal.str "S")]])])
        "cat" "2025-01-01T00:00:00+00:00" none).map (fun r => r.map Prod.fst) =
      [["asin", "title", "url", "review_count", "seller", "price", "currency",
        "price_shipping", "condition", "rating_count", "seller_id", "seller_link",
        "delivery", "delivery_type", "delivery_date", "offer_position",
        "delivery_option_position", "category_label", "node_label", "extracted_at",
        "pricing_status"]] ∧
    ((PriceListing.flatten_pricing
        (JVal.obj [("asin", JVal.str "A1"),
          ("pricing", JVal.arr [JVal.obj [("seller", JVal.str "S")]])])
        "cat" "2025-01-01T00:00:00+00:00" none).all (fun r =>
      (row_get r "payload_raw").isNone && (row_get r "payload").isNone)) = true :=
  ⟨rfl, rfl⟩

/-- C7 (amended): every row the details-job normalizer emits — in the
`ok`, `no_content` and `error` branches alike — carries the full raw
payload of its item serialized in `payload_raw`; the price-listing rows
built by `flatten_pricing` carry only flattened fields and no raw-payload
field. -/
theorem claim7_payload_preserved_amended :
    (∀ (cat : String) (node : Option String) (t asin : String) (payload : JVal),
      row_get (ProductDetails.make_row cat node t asin payload) "payload_raw" =
        some (JVal.str (jser payload))) ∧
    (∀ (raws : List JVal) (items : List String) (cat : String) (node : Option String)
        (t : String),
      ∀ row ∈ ProductDetails.normalize_records raws items cat node t,
        ∃ p ∈ items.zip raws,
          row_get row "payload_raw" = some (JVal.str (jser p.2))) ∧
    (∀ (content : JVal) (cat t : String) (node : Option String),
      ∀ row ∈ PriceListing.flatten_pricing content cat t node,
        (row_get row "payload_raw").isNone = true) := by
  refine ⟨fun cat node t asin payload => rfl, ?_, flatten_pricing_no_payload_raw⟩
  intro raws items cat node t row hrow
  simp only [ProductDetails.normalize_records, List.mem_map] at hrow
  obtain ⟨p, hp, rfl⟩ := hrow
  exact ⟨p, hp, rfl⟩

/-- Witness for `claim7_payload_preserved_amended` at concrete inputs. -/
theorem claim7_payload_preserved_amended_witness :
    row_get (ProductDetails.make_row "cat" none "t" "A1"
        (JVal.obj [("error", JVal.str "boom")])) "payload_raw" =
      some (JVal.str (jser (JVal.obj [("error", JVal.str "boom")]))) ∧
    (∃ p ∈ (["A1"].zip [JVal.obj [("error", JVal.str "boom")]]),
      row_get (ProductDetails.make_row "cat" none "t" "A1"
        (JVal.obj [("error", JVal.str "boom")])) "payload_raw" =
        some (JVal.str (jser p.2))) ∧
    (row_get (PriceListing.offer_row
        (JVal.obj [("asin", JVal.str "A1"),
          ("pricing", JVal.arr [JVal.obj [("seller", JVal.str "S")]])])
        (JVal.obj [("seller", JVal.str "S")]) "cat" none "t" 1 1 JVal.null)
      "payload_raw").isNone = true :=
  ⟨claim7_payload_preserved_amended.1 "cat" none "t" "A1"
      (JVal.obj [("error", JVal.str "boom")]),
   claim7_payload_preserved_amended.2.1 [JVal.obj [("error", JVal.str "boom")]] ["A1"]
      "cat" none "t"
      (ProductDetails.make_row "cat" none "t" "A1" (JVal.obj [("error", JVal.str "boom")]))
      (List.mem_cons_self _ _),
   claim7_payload_preserved_amended.2.2
      (JVal.obj [("asin", JVal.str "A1"),
        ("pricing", JVal.arr [JVal.obj [("seller", JVal.str "S")]])])
      "cat" "t" none
      (PriceListing.offer_row
        (JVal.obj [("asin", JVal.str "A1"),
          ("pricing", JVal.arr [JVal.obj [("seller", JVal.str "S")]])])
        (JVal.obj [("seller", JVal.str "S")]) "cat" none "t" 1 1 JVal.null)
      (List.mem_cons_self _ _)⟩

/-! ## Claim C6: concurrency clamp -/

/-- C6 (counterexample): the claim says a requested worker count of 0 is
clamped to 1; in the code `args.max_workers or cfg.get("max_workers") or 8`
treats 0 as unset, so a requested 0 with no config value yields the
default 8, not 1. -/
theorem claim6_counterexample :
    resolve_max_workers (some 0) none 8 = 8 ∧ (8 : Int) ≠ 1 := ⟨rfl, by decide⟩

/-- C6 (amended): a positive requested worker count is used as given and a
negative one is clamped to 1, but a requested 0 is treated as unset and
falls back to the config-value / default chain (8 for the price job, 6 for
the details job). -/
theorem claim6_concurrency_clamp_amended :
    (∀ (n : Int) (cfg : Option Int) (d : Int), 0 < n →
      resolve_max_workers (some n) cfg d = n) ∧
    (∀ (n : Int) (cfg : Option Int) (d : Int), n < 0 →
      resolve_max_workers (some n) cfg d = 1) ∧
    (∀ (cfg : Option Int) (d : Int),
      resolve_max_workers (some 0) cfg d = resolve_max_workers none cfg d) := by
  refine ⟨fun n cfg d h => ?_, fun n cfg d h => ?_, fun cfg d => ?_⟩
  · simp [resolve_max_workers, truthyInt, show (n != 0) = true by simp; omega,
      show ¬ n < 1 by omega]
  · simp [resolve_max_workers, truthyInt, show (n != 0) = true by simp; omega,
      show n < 1 by omega]
  · simp [resolve_max_workers, truthyInt]

/-! ## Helper lemmas for the collection loops (claims C1, C2, C9) -/

/-- `d[k] = v` then `d.get(k')`: the inserted value for `k' = k`, the old
value otherwise. -/
theorem dict_find_insert (k k' : String) (v : JVal) :
    ∀ store : List (String × JVal),
      ProductDetails.dict_find (ProductDetails.dict_insert store k v) k' =
        if k' = k then some v else ProductDetails.dict_find store k' := by
  intro store
  induction store with
  | nil =>
    by_cases h : k' = k
    · simp [ProductDetails.dict_insert, ProductDetails.dict_find, h]
    · have h2 : ¬ k = k' := fun e => h e.symm
      simp [ProductDetails.dict_insert, ProductDetails.dict_find, h, h2]
  | cons kv rest ih =>
    by_cases hk : kv.1 = k
    · by_cases hk' : k' = k
      · simp [ProductDetails.dict_insert, ProductDetails.dict_find, hk, hk']
      · have h2 : ¬ k = k' := fun e => hk' e.symm
        have e2 : ¬ kv.1 = k' := fun e => hk' (e.symm.trans hk)
        simp [ProductDetails.dict_insert, ProductDetails.dict_find, hk, hk', h2, e2]
    · by_cases hk' : kv.1 = k'
      · have e1 : ¬ k' = k := fun e => hk (hk' ▸ e : kv.1 = k)
        simp [ProductDetails.dict_insert, ProductDetails.dict_find, hk, hk', e1]
      · simp only [ProductDetails.dict_insert, if_neg hk]
        simp only [ProductDetails.dict_find, List.find?_cons] at ih ⊢
        have e2 : (decide (kv.1 = k')) = false := by simp [hk']
        rw [e2]
        exact ih

/-- The dict built by the details collection loop holds, for each item
string, the converted payload of the last completion that wrote it. -/
theorem collect_payloads_find :
    ∀ (completions : List (Nat × ProductDetails.FutResult)) (inputs : List String)
      (store : List (String × JVal)) (a : String),
      ProductDetails.dict_find
        (completions.foldl (fun st c =>
          ProductDetails.dict_insert st (inputs.getD c.1 "")
            (ProductDetails.convert_result c.2)) store) a =
      (match (completions.reverse).find? (fun c => inputs.getD c.1 "" = a) with
       | some c => some (ProductDetails.convert_result c.2)
       | none => ProductDetails.dict_find store a) := by
  intro completions
  induction completions with
  | nil => intro inputs store a; rfl
  | cons c rest ih =>
    intro inputs store a
    simp only [List.foldl_cons, List.reverse_cons, List.find?_append]
    rw [ih]
    cases hfind : (rest.reverse).find? (fun c => decide (inputs.getD c.1 "" = a)) with
    | some c' => simp [hfind]
    | none =>
      simp only [hfind, Option.none_or]
      by_cases hc : inputs.getD c.1 "" = a
      · have hd : (decide (inputs.getD c.1 "" = a)) = true := by
          simp only [decide_eq_true_eq]; exact hc
        simp only [List.find?_cons, hd]
        rw [dict_find_insert]
        rw [if_pos hc.symm]
      · have hd : (decide (inputs.getD c.1 "" = a)) = false := by
          simp only [decide_eq_false_iff_not]; exact hc
        simp only [List.find?_cons, hd, List.find?_nil]
        rw [dict_find_insert]
        rw [if_neg (fun h => hc h.symm)]

/-- The details pipeline equals a single map over the inputs: one row per
item, in input order, each built from its item string and the dict entry
stored for that string. -/
theorem details_main_rows_eq_map (inputs : List String)
    (completions : List (Nat × ProductDetails.FutResult)) (cat : String)
    (node : Option String) (t : String) :
    ProductDetails.main_rows inputs completions cat node t =
      inputs.map (fun asin => ProductDetails.make_row cat node t asin
        ((ProductDetails.dict_find (ProductDetails.collect_payloads inputs completions)
            asin).getD (JVal.obj [("error", JVal.str "Missing result")]))) := by
  unfold ProductDetails.main_rows ProductDetails.normalize_records ProductDetails.reassemble
  generalize ProductDetails.collect_payloads inputs completions = store
  induction inputs with
  | nil => rfl
  | cons a rest ih =>
    simp only [List.map_cons, List.zip_cons_cons]
    rw [ih]

/-- The item index of `inputs.getD` form used by `reassemble`: at a valid
index the reassembled payload is the dict entry of the item string. -/
theorem reassemble_getD (inputs : List String) (store : List (String × JVal)) (i : Nat)
    (h : i < inputs.length) :
    (ProductDetails.reassemble inputs store).getD i JVal.null =
      (ProductDetails.dict_find store (inputs.getD i "")).getD
        (JVal.obj [("error", JVal.str "Missing result")]) := by
  unfold ProductDetails.reassemble
  rw [List.getD_eq_getElem?_getD, List.getElem?_map, List.getElem?_eq_getElem h,
    List.getD_eq_getElem?_getD, List.getElem?_eq_getElem h]
  rfl

/-- Every tag of a row emitted by the price-listing collection loop is the
position of one of the completions. -/
theorem collect_results_tags_mem :
    ∀ (cs : List (Nat × PriceListing.FutResult)) (x : Nat),
      x ∈ (PriceListing.collect_results cs).1.map Prod.fst → x ∈ cs.map Prod.fst := by
  intro cs
  induction cs with
  | nil => intro x hx; simp [PriceListing.collect_results] at hx
  | cons head rest ih =>
    obtain ⟨i, r⟩ := head
    intro x hx
    cases r with
    | exn m =>
      simp only [PriceListing.collect_results] at hx
      exact List.mem_cons_of_mem _ (ih x hx)
    | ok df err =>
      cases df with
      | none =>
        simp only [PriceListing.collect_results] at hx
        exact List.mem_cons_of_mem _ (ih x hx)
      | some d =>
        cases hd : d.isEmpty with
        | true =>
          simp only [PriceListing.collect_results, hd, if_true] at hx
          exact List.mem_cons_of_mem _ (ih x hx)
        | false =>
          simp only [PriceListing.collect_results, hd, Bool.false_eq_true, if_false,
            List.map_append, List.mem_append, List.map_map] at hx
          rcases hx with hx | hx
          · obtain ⟨_, _, rfl⟩ := List.mem_map.mp hx
            exact List.mem_cons_self _ _
          · exact List.mem_cons_of_mem _ (ih x hx)

/-- The tags of one item's row group are all equal, hence weakly sorted. -/
theorem pairwise_le_tags_const (i : Nat) (d : List Row) :
    List.Pairwise (· ≤ ·) ((d.map (fun row => (i, row))).map Prod.fst) := by
  rw [List.map_map]
  induction d with
  | nil => simp
  | cons a rest ih =>
    simp only [List.map_cons]
    refine List.Pairwise.cons ?_ ih
    intro y hy
    obtain ⟨_, _, rfl⟩ := List.mem_map.mp hy
    exact Nat.le_refl i

/-- When the completions arrive in strictly increasing input-position
order, the rows collected by the price-listing loop are tagged in weakly
increasing input-position order. -/
theorem collect_results_tags_sorted :
    ∀ cs : List (Nat × PriceListing.FutResult),
      List.Pairwise (· < ·) (cs.map Prod.fst) →
      List.Pairwise (· ≤ ·) ((PriceListing.collect_results cs).1.map Prod.fst) := by
  intro cs
  induction cs with
  | nil => intro _; simp [PriceListing.collect_results]
  | cons head rest ih =>
    obtain ⟨i, r⟩ := head
    intro hp
    simp only [List.map_cons, List.pairwise_cons] at hp
    obtain ⟨hlt, hrest⟩ := hp
    have ihr := ih hrest
    cases r with
    | exn m => simpa only [PriceListing.collect_results] using ihr
    | ok df err =>
      cases df with
      | none => simpa only [PriceListing.collect_results] using ihr
      | some d =>
        cases hd : d.isEmpty with
        | true => simpa only [PriceListing.collect_results, hd, if_true] using ihr
        | false =>
          simp only [PriceListing.collect_results, hd, Bool.false_eq_true, if_false,
            List.map_append]
          refine List.pairwise_append.mpr ⟨pairwise_le_tags_const i d, ihr, ?_⟩
          intro a ha b hb
          obtain ⟨_, _, rfl⟩ := List.mem_map.mp (by rw [← List.map_map]; exact ha)
          exact Nat.le_of_lt (hlt b (collect_results_tags_mem rest b hb))

/-- `process_asin` never hands the collection loop an empty DataFrame:
the error branch and the no-offers fallback each contribute one row, and
the offers branch is only kept when non-empty. -/
theorem process_asin_rows_nonempty (asin : String) (resp : JVal) (cat : String)
    (node : Option String) (t : String) :
    (PriceListing.process_asin asin resp cat node t).1 ≠ [] := by
  unfold PriceListing.process_asin
  split
  · simp [PriceListing.build_error_row]
  · simp only
    split
    · simp [PriceListing.build_no_pricing_row]
    · rename_i hflat
      intro hc
      rw [hc] at hflat
      simp at hflat

/-- Completions that all carry a non-empty DataFrame each contribute at
least one row to the price-listing output. -/
theorem collect_results_contrib :
    ∀ cs : List (Nat × PriceListing.FutResult),
      (∀ c ∈ cs, ∃ d e, c.2 = PriceListing.FutResult.ok (some d) e ∧ d ≠ []) →
      ∀ c ∈ cs, ∃ row, (c.1, row) ∈ (PriceListing.collect_results cs).1 := by
  intro cs
  induction cs with
  | nil => intro _ c hc; simp at hc
  | cons head rest ih =>
    intro hall c hc
    obtain ⟨i, r⟩ := head
    obtain ⟨d, e, hhd, hdne⟩ := hall (i, r) (List.mem_cons_self _ _)
    simp only at hhd
    subst hhd
    cases d with
    | nil => exact absurd rfl hdne
    | cons row0 drest =>
      simp only [PriceListing.collect_results, List.isEmpty_cons, Bool.false_eq_true,
        if_false]
      rcases List.mem_cons.mp hc with rfl | hc2
      · exact ⟨row0, List.mem_append_left _ (List.mem_map.mpr ⟨row0,
          List.mem_cons_self _ _, rfl⟩)⟩
      · obtain ⟨row, hrow⟩ := ih (fun c' hc' => hall c' (List.mem_cons_of_mem _ hc')) c hc2
        exact ⟨row, List.mem_append_right _ hrow⟩

/-- Witness for `claim6_concurrency_clamp_amended` at concrete inputs. -/
theorem claim6_concurrency_clamp_amended_witness :
    resolve_max_workers (some 5) none 8 = 5 ∧
    resolve_max_workers (some (-3)) none 8 = 1 ∧
    resolve_max_workers (some 0) (some 4) 8 = resolve_max_workers none (some 4) 8 :=
  ⟨claim6_concurrency_clamp_amended.1 5 none 8 (by decide),
   claim6_concurrency_clamp_amended.2.1 (-3) none 8 (by decide),
   claim6_concurrency_clamp_amended.2.2 (some 4) 8⟩

/-! ## Claims C1, C2, C9: collection-loop behavior -/

/-- C1 (counterexample): two items at input positions 0 and 1 both succeed
with one row each but complete in the order 1 then 0; the price-listing
loop appends per-item DataFrames in completion order, so item 1's row
precedes item 0's row — the claimed input-order guarantee fails. -/
theorem claim1_counterexample :
    (PriceListing.collect_results
      [(1, PriceListing.FutResult.ok (some [[("asin", JVal.str "B")]]) none),
       (0, PriceListing.FutResult.ok (some [[("asin", JVal.str "A")]]) none)]).1.map
        Prod.fst = [1, 0] := rfl

/-- C1 (amended): the details job preserves input order — its pipeline
equals a map over the inputs in order, one row per item, regardless of
completion order; the price-listing job emits per-item row groups in
completion order, so its output is in input order exactly when the
completions arrive in input-position order. -/
theorem claim1_order_amended :
    (∀ (inputs : List String) (completions : List (Nat × ProductDetails.FutResult))
        (cat : String) (node : Option String) (t : String),
      ProductDetails.main_rows inputs completions cat node t =
        inputs.map (fun asin => ProductDetails.make_row cat node t asin
          ((ProductDetails.dict_find (ProductDetails.collect_payloads inputs completions)
              asin).getD (JVal.obj [("error", JVal.str "Missing result")])))) ∧
    (∀ cs : List (Nat × PriceListing.FutResult),
      List.Pairwise (· < ·) (cs.map Prod.fst) →
      List.Pairwise (· ≤ ·) ((PriceListing.collect_results cs).1.map Prod.fst)) :=
  ⟨details_main_rows_eq_map, collect_results_tags_sorted⟩

/-- Witness for `claim1_order_amended` at concrete inputs. -/
theorem claim1_order_amended_witness :
    List.Pairwise (· ≤ ·)
      ((PriceListing.collect_results
        [(0, PriceListing.FutResult.ok (some [[("asin", JVal.str "A")]]) none),
         (1, PriceListing.FutResult.ok (some [[("asin", JVal.str "B")]]) none)]).1.map
          Prod.fst) :=
  claim1_order_amended.2
    [(0, PriceListing.FutResult.ok (some [[("asin", JVal.str "A")]]) none),
     (1, PriceListing.FutResult.ok (some [[("asin", JVal.str "B")]]) none)]
    (by simp)

/-- C2 (counterexample): a single item whose future raises is only
recorded in `failures`; the run's row list stays empty, so the item is
dropped from the output instead of contributing an error row. -/
theorem claim2_counterexample :
    (PriceListing.collect_results [(0, PriceListing.FutResult.exn "boom")]).1 = [] ∧
    (PriceListing.collect_results [(0, PriceListing.FutResult.exn "boom")]).2 = [0] :=
  ⟨rfl, rfl⟩

/-- C2 (amended): `process_asin` itself always returns at least one row
(adapter errors and empty content become error / no-offer rows); the
details job emits exactly one row per input item; and in the price job
every completion carrying a non-empty DataFrame contributes at least one
row.  An item whose future raises at `future.result()`, or whose DataFrame
is `None` or empty, is however recorded in `failures` and dropped from the
output. -/
theorem claim2_no_item_dropped_amended :
    (∀ (asin : String) (resp : JVal) (cat : String) (node : Option String) (t : String),
      (PriceListing.process_asin asin resp cat node t).1 ≠ []) ∧
    (∀ (inputs : List String) (completions : List (Nat × ProductDetails.FutResult))
        (cat : String) (node : Option String) (t : String),
      (ProductDetails.main_rows inputs completions cat node t).length = inputs.length) ∧
    (∀ cs : List (Nat × PriceListing.FutResult),
      (∀ c ∈ cs, ∃ d e, c.2 = PriceListing.FutResult.ok (some d) e ∧ d ≠ []) →
      ∀ c ∈ cs, ∃ row, (c.1, row) ∈ (PriceListing.collect_results cs).1) := by
  refine ⟨process_asin_rows_nonempty, ?_, collect_results_contrib⟩
  intro inputs completions cat node t
  rw [details_main_rows_eq_map]
  simp

/-- Witness for `claim2_no_item_dropped_amended` at concrete inputs. -/
theorem claim2_no_item_dropped_amended_witness :
    ∃ row, ((0 : Nat), row) ∈ (PriceListing.collect_results
      [(0, PriceListing.FutResult.ok (some [[("asin", JVal.str "A")]]) none)]).1 :=
  claim2_no_item_dropped_amended.2.2
    [(0, PriceListing.FutResult.ok (some [[("asin", JVal.str "A")]]) none)]
    (by
      intro c hc
      rcases List.mem_cons.mp hc with rfl | hc2
      · exact ⟨[[("asin", JVal.str "A")]], none, rfl, by simp⟩
      · simp at hc2)
    (0, PriceListing.FutResult.ok (some [[("asin", JVal.str "A")]]) none)
    (List.mem_cons_self _ _)

/-- C9 (confirmed): in the details job every occurrence of a duplicated
item string receives the same payload in the reassembled payload list —
namely the converted payload of the completion that wrote the
string-keyed dict entry last — so per-occurrence fetch results are not
kept distinct. -/
theorem claim9_duplicate_items_last_write :
    ∀ (inputs : List String) (completions : List (Nat × ProductDetails.FutResult))
      (i j : Nat), i < inputs.length → j < inputs.length →
      inputs.getD i "" = inputs.getD j "" →
      ((ProductDetails.reassemble inputs
          (ProductDetails.collect_payloads inputs completions)).getD i JVal.null =
        (ProductDetails.reassemble inputs
          (ProductDetails.collect_payloads inputs completions)).getD j JVal.null) ∧
      ((ProductDetails.reassemble inputs
          (ProductDetails.collect_payloads inputs completions)).getD i JVal.null =
        (match ProductDetails.last_completion_for inputs completions (inputs.getD i "") with
         | some c => ProductDetails.convert_result c.2
         | none => JVal.obj [("error", JVal.str "Missing result")])) := by
  intro inputs completions i j hi hj heq
  have h1 := reassemble_getD inputs (ProductDetails.collect_payloads inputs completions) i hi
  have h2 := reassemble_getD inputs (ProductDetails.collect_payloads inputs completions) j hj
  constructor
  · rw [h1, h2, heq]
  · rw [h1]
    unfold ProductDetails.collect_payloads
    rw [collect_payloads_find completions inputs [] (inputs.getD i "")]
    unfold ProductDetails.last_completion_for
    cases hf : (completions.reverse).find?
        (fun c => decide (inputs.getD c.1 "" = inputs.getD i "")) with
    | some c => simp [hf]
    | none => simp [hf, ProductDetails.dict_find]

/-- Witness for `claim9_duplicate_items_last_write` at concrete inputs:
the item `X` occurs at positions 0 and 2, its fetches complete in the
order 0, 2, 1, and both occurrences end with the payload of the
completion for position 2 — the last write. -/
theorem claim9_duplicate_items_last_write_witness :
    ((ProductDetails.reassemble ["X", "Y", "X"]
        (ProductDetails.collect_payloads ["X", "Y", "X"]
          [(0, ProductDetails.FutResult.ok (JVal.str "first")),
           (2, ProductDetails.FutResult.ok (JVal.str "last")),
           (1, ProductDetails.FutResult.ok (JVal.str "mid"))])).getD 0 JVal.null =
      (ProductDetails.reassemble ["X", "Y", "X"]
        (ProductDetails.collect_payloads ["X", "Y", "X"]
          [(0, ProductDetails.FutResult.ok (JVal.str "first")),
           (2, ProductDetails.FutResult.ok (JVal.str "last")),
           (1, ProductDetails.FutResult.ok (JVal.str "mid"))])).getD 2 JVal.null) ∧
    ((ProductDetails.reassemble ["X", "Y", "X"]
        (ProductDetails.collect_payloads ["X", "Y", "X"]
          [(0, ProductDetails.FutResult.ok (JVal.str "first")),
           (2, ProductDetails.FutResult.ok (JVal.str "last")),
           (1, ProductDetails.FutResult.ok (JVal.str "mid"))])).getD 0 JVal.null =
      (match ProductDetails.last_completion_for ["X", "Y", "X"]
          [(0, ProductDetails.FutResult.ok (JVal.str "first")),
           (2, ProductDetails.FutResult.ok (JVal.str "last")),
           (1, ProductDetails.FutResult.ok (JVal.str "mid"))] "X" with
       | some c => ProductDetails.convert_result c.2
       | none => JVal.obj [("error", JVal.str "Missing result")])) :=
  claim9_duplicate_items_last_write ["X", "Y", "X"]
    [(0, ProductDetails.FutResult.ok (JVal.str "first")),
     (2, ProductDetails.FutResult.ok (JVal.str "last")),
     (1, ProductDetails.FutResult.ok (JVal.str "mid"))] 0 2
    (by decide) (by decide) (by decide)

end Etrendo